import Mathlib

/-!
Verification of the Problem Translator in `excel_solver.py`: a shallow
embedding of `validate`, `print_objective_function`, `print_results` and
`solve`, together with theorems settling the frozen claims about them.

Real numbers are modelled as rationals (the numeric work the program does
is exact-arithmetic at the level of the claims: negation, masking,
rounding to a fixed number of decimal digits, integer truncation).
Python's `round(x, d)` (round half to even at `d` decimal digits) is
`pyRound d x`; Python's `int(x)` (truncation toward zero) is `pyInt x`;
Python's `x % 1 == 0` test is `isIntQ x`.
-/

namespace ExcelSolver

/-- Round the fraction `n / dd` (with `dd > 0`) to the nearest integer,
ties to even — the rounding Python's `round` performs on the value scaled
into integer range. `f` is the floor of the fraction (integer division by
a positive divisor rounds down) and `r` its nonnegative remainder, so the
fraction's fractional part is `r / dd`, compared against `1/2` by
cross-multiplication. -/
def pyRoundInt (n dd : ℤ) : ℤ :=
  let f := n / dd
  let r := n - f * dd
  if 2 * r < dd then f
  else if dd < 2 * r then f + 1
  else if f % 2 = 0 then f else f + 1

/-- Python `round(x, ndigits := d)`: round at `d` decimal digits (the
value `x` scaled by `10 ^ d` is `x.num * 10 ^ d / x.den`). -/
def pyRound (d : ℕ) (x : ℚ) : ℚ :=
  mkRat (pyRoundInt (x.num * 10 ^ d) (x.den : ℤ)) (10 ^ d)

/-- Python `int(x)`: truncation toward zero. -/
def pyInt (x : ℚ) : ℤ :=
  Int.tdiv x.num (x.den : ℤ)

/-- Python `x % 1 == 0` (equivalently `x.is_integer()`): the value has
zero fractional part. -/
def isIntQ (x : ℚ) : Bool :=
  x.den = 1

/-- A number as the program displays it: either collapsed to integer form
(no decimal point) or kept in decimal form. -/
inductive Disp where
  | int : ℤ → Disp
  | dec : ℚ → Disp
deriving Repr, DecidableEq

/-- Negation of a displayed number (Python `num * -1` applied after the
optional collapse to `int`, so it stays in the same branch). -/
def Dispneg : Disp → Disp
  | .int n => .int (-n)
  | .dec q => .dec (-q)

/-- The numeric value shown by a displayed number. -/
def dispVal : Disp → ℚ
  | .int n => (n : ℚ)
  | .dec q => q

/-- Display a value with the collapse-to-integer rule the source applies
to an already-rounded (or raw, for the leading objective coefficient)
value: integer form exactly when the fractional part is zero. -/
def dispOf (x : ℚ) : Disp :=
  if isIntQ x then .int (pyInt x) else .dec x

/-- The sequential variable labels, `alphabet = "abcdefghijklmnopqrstuvwxyz"`
in the source. `alphabet[i]?` is `none` where Python would raise
`IndexError` (more than 26 variables). -/
def alphabet : List Char :=
  "abcdefghijklmnopqrstuvwxyz".toList

/-- The four structural violations `validate` can report, one tag per
printed diagnostic message (text elided; each check has its own). -/
inductive VErr where
  | objLen
  | lenMismatch
  | badProblemType
  | strictSign
deriving Repr, DecidableEq

/-- Embedding of `validate` (excel_solver.py lines 11-41): the list of
violations found, in source order. Python raises `ValueError ("Invalid model")`
iff this list is nonempty. `c_l.headD []` stands for `c_l[0]`
(Python would raise `IndexError` on an empty `c_l`, so theorems about
`validate` assume `c_l` nonempty). -/
def validate (obj : List ℚ) (c_l : List (List ℚ)) (c_r : List ℚ)
    (signs : List String) (problem_type : String) : List VErr :=
  (if obj.length = (c_l.headD []).length then [] else [VErr.objLen])
  ++ (if c_l.length = c_r.length ∧ c_r.length = signs.length then [] else [VErr.lenMismatch])
  ++ (if problem_type = "max" ∨ problem_type = "min" then [] else [VErr.badProblemType])
  ++ (if ">" ∈ signs ∨ "<" ∈ signs then [VErr.strictSign] else [])

/-- One printed term of the objective-function rendering: the leading
term (bare signed number) or a subsequent term (`+`/`-` token, shown here
as a `Bool` that is `true` for `-`, followed by the magnitude). Each term
carries its variable label. -/
inductive ObjItem where
  | first : Disp → Option Char → ObjItem
  | signed : Bool → Disp → Option Char → ObjItem
deriving Repr, DecidableEq

/-- One subsequent objective term (`print_objective_function` lines 68-76):
`num = round(obj[i], 2)`, collapsed to integer display when integral,
printed as `- (num * -1)` when negative and `+ num` otherwise. -/
def termOf (c : ℚ) : Bool × Disp :=
  let num := pyRound 2 c
  let d := dispOf num
  if num < 0 then (true, Dispneg d) else (false, d)

/-- The loop `for i in range(1, len(obj))`, carrying the index used for
the `alphabet[i]` label. -/
def restItems (i : ℕ) : List ℚ → List ObjItem
  | [] => []
  | c :: cs =>
    ObjItem.signed (termOf c).1 (termOf c).2 alphabet[i]? :: restItems (i + 1) cs

/-- Embedding of `print_objective_function` (lines 44-78): the sequence
of printed terms. The leading coefficient is printed raw — collapsed via
`obj[0].is_integer()` but never rounded. `none` models the `IndexError`
Python raises on an empty objective (`obj[0]`). -/
def printObjectiveFunction (obj : List ℚ) : Option (List ObjItem) :=
  match obj with
  | [] => none
  | x :: rest => some (ObjItem.first (dispOf x) alphabet[0]? :: restItems 1 rest)

/-- `print_results` lines 88-90: `optimal = round(solution.fun, 2)`;
if that rounded value has zero fractional part, display `int(solution.fun)`
— the truncation of the RAW value — else display the rounded value. -/
def displayOptimalRaw (v : ℚ) : Disp :=
  let optimal := pyRound 2 v
  if isIntQ optimal then Disp.int (pyInt v) else Disp.dec optimal

/-- `print_results` line 92: negate the displayed optimal for a
maximization problem. -/
def reportedOptimal (ptype : String) (v : ℚ) : Disp :=
  if ptype = "max" then Dispneg (displayOptimalRaw v) else displayOptimalRaw v

/-- `print_results` lines 98-103: each decision-variable value rounded to
5 digits, collapsed to integer display (of the rounded value) when its
fractional part is zero, labelled by `alphabet[i]`. -/
def quantItems (i : ℕ) : List ℚ → List (Disp × Option Char)
  | [] => []
  | v :: vs => (dispOf (pyRound 5 v), alphabet[i]?) :: quantItems (i + 1) vs

/-- What the external solver hands back (`scipy.optimize.OptimizeResult`
fields the program reads; `fn` is the source's `fun`, a reserved word in
Lean). -/
structure SolverResult where
  x : List ℚ
  fn : ℚ
  success : Bool
  message : String
deriving Repr, DecidableEq

/-- One observable print action of `solve`. -/
inductive PrintEvent where
  | objective : Option (List ObjItem) → PrintEvent
  | results : Disp → List (Disp × Option Char) → String → PrintEvent
deriving Repr, DecidableEq

/-- Embedding of `print_results` (lines 81-107) as the structured event
it prints. -/
def printResults (solution : SolverResult) (ptype : String) : PrintEvent :=
  PrintEvent.results (reportedOptimal ptype solution.fn) (quantItems 0 solution.x)
    solution.message

/-- Python truthiness of the optional scalars `minimum_for_all` /
`maximum_for_all`: `if minimum_for_all:` is taken iff the value is
present and nonzero. -/
def truthy : Option ℚ → Bool
  | none => false
  | some v => decide (¬ v = 0)

/-- Embedding of the bounds derivation (`solve` lines 179-195), taken
when no explicit bounds array is supplied: start from `(0, None)` for
every variable, then three whole-column overwrites. -/
def deriveBounds (n : ℕ) (make_unconstrained_non_negative : Bool)
    (minimum_for_all maximum_for_all : Option ℚ) : List (Option ℚ × Option ℚ) :=
  let b0 : Option ℚ × Option ℚ := (some 0, none)
  let b1 := if make_unconstrained_non_negative = false then (none, b0.2) else b0
  let b2 := if truthy minimum_for_all then (minimum_for_all, b1.2) else b1
  let b3 := if truthy maximum_for_all then (b2.1, maximum_for_all) else b2
  List.replicate n b3

/-- `if not bounds:` on the `bounds` parameter: derive defaults when the
argument is absent, use the explicit array otherwise. -/
def usedBounds (bounds : Option (List (Option ℚ × Option ℚ))) (n : ℕ)
    (nn : Bool) (mn mx : Option ℚ) : List (Option ℚ × Option ℚ) :=
  match bounds with
  | none => deriveBounds n nn mn mx
  | some b => b

/-- `solve` lines 197-199: negate every objective coefficient for a
maximization problem. -/
def canonicalObjective (problem_type : String) (obj : List ℚ) : List ℚ :=
  if problem_type = "max" then obj.map (fun a => -a) else obj

/-- One constraint row: coefficients, right-hand side, sign token. The
parallel arrays `c_l`, `c_r`, `signs` are zipped (they have equal length
once validation passes). -/
def zipRows (c_l : List (List ℚ)) (c_r : List ℚ) (signs : List String) :
    List (List ℚ × ℚ × String) :=
  c_l.zip (c_r.zip signs)

/-- `solve` lines 201-203 applied to one row: where the sign is `>=`,
negate the coefficients and the right-hand side; all other rows are left
untouched. The sign component itself is never rewritten. -/
def canonRow (r : List ℚ × ℚ × String) : List ℚ × ℚ × String :=
  if r.2.2 = ">=" then (r.1.map (fun a => -a), -r.2.1, r.2.2) else r

/-- `solve` lines 201-203 over the whole constraint set. -/
def canonicalRows (rows : List (List ℚ × ℚ × String)) : List (List ℚ × ℚ × String) :=
  rows.map canonRow

/-- `solve` lines 206-213, equality side: when some sign is `=`, the
rows of the (already sign-normalized) arrays masked by `signs == "="`;
when no sign is `=`, `None` — logically absent, not an empty array. -/
def equalityBlock (rows : List (List ℚ × ℚ × String)) : Option (List (List ℚ × ℚ)) :=
  if rows.any (fun r => decide (r.2.2 = "=")) then
    some (((canonicalRows rows).filter (fun r => decide (r.2.2 = "="))).map
      (fun r => (r.1, r.2.1)))
  else none

/-- `solve` lines 209-210: `np.delete` of the `=` rows from the
sign-normalized arrays, keeping order — the block passed as `A_ub`/`b_ub`. -/
def inequalityBlock (rows : List (List ℚ × ℚ × String)) : List (List ℚ × ℚ) :=
  ((canonicalRows rows).filter (fun r => !(decide (r.2.2 = "=")))).map
    (fun r => (r.1, r.2.1))

/-- The argument tuple `solve` passes to `scipy.optimize.linprog`
(line 216-224). -/
structure LinprogCall where
  c : List ℚ
  A_ub : List (List ℚ)
  b_ub : List ℚ
  A_eq : Option (List (List ℚ))
  b_eq : Option (List ℚ)
  bounds : List (Option ℚ × Option ℚ)
  method : String
deriving Repr, DecidableEq

/-- The canonical form `solve` builds for the external solver. -/
def canonicalCall (problem_type : String) (obj : List ℚ)
    (c_l : List (List ℚ)) (c_r : List ℚ) (signs : List String)
    (bounds : List (Option ℚ × Option ℚ)) (method : String) : LinprogCall :=
  let rows := zipRows c_l c_r signs
  let ineq := inequalityBlock rows
  let eqs := equalityBlock rows
  { c := canonicalObjective problem_type obj
    A_ub := ineq.map (fun r => r.1)
    b_ub := ineq.map (fun r => r.2)
    A_eq := eqs.map (fun l => l.map (fun r => r.1))
    b_eq := eqs.map (fun l => l.map (fun r => r.2))
    bounds := bounds
    method := method }

/-- Embedding of `solve` (lines 111-229), parametrized by the external
solver as an oracle `linprog`. `Except.error` models the
`ValueError ("Invalid model")` raised by `validate`; on success the pair
holds the print events emitted and the value returned (`none` models
Python's implicit `return None` when `display_result` is true). -/
def solve (problem_type : String) (objective_function : List ℚ)
    (constraints_left : List (List ℚ)) (constraints_right : List ℚ)
    (constraints_signs : List String) (make_unconstrained_non_negative : Bool)
    (minimum_for_all maximum_for_all : Option ℚ)
    (bounds : Option (List (Option ℚ × Option ℚ))) (method : String)
    (display_result : Bool) (linprog : LinprogCall → SolverResult) :
    Except (List VErr) (List PrintEvent × Option SolverResult) :=
  let errs := validate objective_function constraints_left constraints_right
    constraints_signs problem_type
  if errs = [] then
    let objPrint := PrintEvent.objective (printObjectiveFunction objective_function)
    let bounds2 := usedBounds bounds objective_function.length
      make_unconstrained_non_negative minimum_for_all maximum_for_all
    let solution := linprog (canonicalCall problem_type objective_function
      constraints_left constraints_right constraints_signs bounds2 method)
    if display_result then Except.ok ([objPrint, printResults solution problem_type], none)
    else Except.ok ([objPrint], some solution)
  else Except.error errs

/-- Number of rows in an optional constraint block (`None` counts 0). -/
def blockLen (b : Option (List (List ℚ × ℚ))) : ℕ :=
  match b with
  | none => 0
  | some l => l.length

/-- Sign normalization never rewrites the sign component of a row. -/
theorem canonRow_sign (r : List ℚ × ℚ × String) : (canonRow r).2.2 = r.2.2 := by
  unfold canonRow
  split <;> rfl

/-- Rows with sign `=` are untouched by sign normalization, so filtering
the normalized rows for `=` yields exactly the original `=` rows. -/
theorem canon_filter_eq (rows : List (List ℚ × ℚ × String)) :
    (canonicalRows rows).filter (fun r => decide (r.2.2 = "="))
      = rows.filter (fun r => decide (r.2.2 = "=")) := by
  induction rows with
  | nil => rfl
  | cons r rs ih =>
    by_cases hs : r.2.2 = "="
    · have hr : canonRow r = r := by
        unfold canonRow
        rw [if_neg (by rw [hs]; decide)]
      simp only [canonicalRows, List.map_cons, List.filter_cons, hr, hs]
      simp only [canonicalRows] at ih
      simp [ih]
    · simp only [canonicalRows, List.map_cons, List.filter_cons, canonRow_sign, hs]
      simp only [canonicalRows] at ih
      simp [ih]

/-- Filtering the normalized rows for non-`=` signs commutes with the
normalization itself. -/
theorem canon_filter_ne (rows : List (List ℚ × ℚ × String)) :
    (canonicalRows rows).filter (fun r => !(decide (r.2.2 = "=")))
      = canonicalRows (rows.filter (fun r => !(decide (r.2.2 = "=")))) := by
  induction rows with
  | nil => rfl
  | cons r rs ih =>
    by_cases hs : r.2.2 = "="
    · simp only [canonicalRows, List.map_cons, List.filter_cons, canonRow_sign, hs]
      simp only [canonicalRows] at ih
      simp [ih]
    · simp only [canonicalRows, List.map_cons, List.filter_cons, canonRow_sign, hs]
      simp only [canonicalRows] at ih
      simp [ih]

/-- Negating a displayed number negates the value it shows. -/
theorem dispVal_Dispneg (d : Disp) : dispVal (Dispneg d) = -dispVal d := by
  cases d <;> simp [Dispneg, dispVal]

/-- C1: for `problem_type = "max"` the objective vector handed to the
external solver is the element-wise negation of the user's objective and
the reported optimal value is the sign-negation of what would be reported
for the same solver value under `"min"` (numerically `-1 ×` its displayed
value); for `"min"` both the objective and the reported value pass
through the pipeline with no sign change. -/
theorem C1_objective_sign_flip (obj : List ℚ) (c_l : List (List ℚ)) (c_r : List ℚ)
    (signs : List String) (bs : List (Option ℚ × Option ℚ)) (m : String) (v : ℚ) :
    (canonicalCall "max" obj c_l c_r signs bs m).c = obj.map (fun a => -a)
    ∧ (canonicalCall "min" obj c_l c_r signs bs m).c = obj
    ∧ reportedOptimal "max" v = Dispneg (displayOptimalRaw v)
    ∧ reportedOptimal "min" v = displayOptimalRaw v
    ∧ dispVal (reportedOptimal "max" v) = -dispVal (reportedOptimal "min" v) := by
  refine ⟨rfl, rfl, rfl, rfl, ?_⟩
  simp [reportedOptimal, dispVal_Dispneg]

/-- C2: a constraint row with sign `>=` has both its coefficients and its
right-hand side negated, and (being a non-`=` row) the negated pair lands
in the inequality block; a row with sign `<=` passes through sign
normalization untouched and reaches the inequality block unchanged. -/
theorem C2_sign_normalization (rows : List (List ℚ × ℚ × String)) (i : ℕ)
    (row : List ℚ) (rhs : ℚ) (sign : String)
    (h : rows[i]? = some (row, rhs, sign)) :
    (sign = ">=" →
      (canonicalRows rows)[i]? = some (row.map (fun a => -a), -rhs, sign)
      ∧ (row.map (fun a => -a), -rhs) ∈ inequalityBlock rows)
    ∧ (sign = "<=" →
      (canonicalRows rows)[i]? = some (row, rhs, sign)
      ∧ (row, rhs) ∈ inequalityBlock rows) := by
  have hmem : (row, rhs, sign) ∈ rows := List.getElem?_mem h
  constructor
  · intro hs
    subst hs
    have hcanon : canonRow (row, rhs, ">=") = (row.map (fun a => -a), -rhs, ">=") := by
      unfold canonRow
      rw [if_pos rfl]
    constructor
    · rw [canonicalRows, List.getElem?_map, h]
      exact congrArg some hcanon
    · unfold inequalityBlock
      apply List.mem_map.mpr
      refine ⟨(row.map (fun a => -a), -rhs, ">="), ?_, rfl⟩
      apply List.mem_filter.mpr
      refine ⟨?_, by simp⟩
      exact List.mem_map.mpr ⟨(row, rhs, ">="), hmem, hcanon⟩
  · intro hs
    subst hs
    have hcanon : canonRow (row, rhs, "<=") = (row, rhs, "<=") := by
      unfold canonRow
      rw [if_neg (by simp)]
    constructor
    · rw [canonicalRows, List.getElem?_map, h]
      exact congrArg some hcanon
    · unfold inequalityBlock
      apply List.mem_map.mpr
      refine ⟨(row, rhs, "<="), ?_, rfl⟩
      apply List.mem_filter.mpr
      refine ⟨?_, by simp⟩
      exact List.mem_map.mpr ⟨(row, rhs, "<="), hmem, hcanon⟩

/-- C2 witness: the single `>=` row `[1] · x >= 2` is negated to
`[-1] · x <= -2` and appears in the inequality block. -/
theorem C2_sign_normalization_witness :
    ((([1] : List ℚ).map (fun a => -a), -(2 : ℚ)) ∈ inequalityBlock [([1], 2, ">=")]) :=
  ((C2_sign_normalization [([1], 2, ">=")] 0 [1] 2 ">=" rfl).1 rfl).2

/-- C3: the inequality and equality blocks partition the original rows —
their row counts sum to the original count; the equality block is absent
(`None`, not an empty array) exactly when no row has sign `=`; when
present it consists of the original `=` rows in original order with
coefficients and right-hand sides unflipped; and the inequality block is
the non-`=` rows in original order, each sign-normalized. -/
theorem C3_partition (rows : List (List ℚ × ℚ × String)) :
    (inequalityBlock rows).length + blockLen (equalityBlock rows) = rows.length
    ∧ (equalityBlock rows = none ↔ ∀ r ∈ rows, ¬ r.2.2 = "=")
    ∧ (∀ l, equalityBlock rows = some l →
        l = (rows.filter (fun r => decide (r.2.2 = "="))).map (fun r => (r.1, r.2.1)))
    ∧ inequalityBlock rows
      = (rows.filter (fun r => !(decide (r.2.2 = "=")))).map
          (fun r => ((canonRow r).1, (canonRow r).2.1)) := by
  have hlenmap : (canonicalRows rows).length = rows.length := by
    simp [canonicalRows]
  refine ⟨?_, ?_, ?_, ?_⟩
  · unfold inequalityBlock equalityBlock blockLen
    by_cases hany : rows.any (fun r => decide (r.2.2 = "=")) = true
    · rw [if_pos hany]
      simp only [List.length_map]
      have hsplit := List.length_eq_length_filter_add
        (l := canonicalRows rows) (fun r => decide (r.2.2 = "="))
      omega
    · rw [if_neg hany]
      simp only [List.length_map]
      have hall : ∀ r ∈ canonicalRows rows, (!(decide (r.2.2 = "="))) = true := by
        intro r hr
        rcases List.mem_map.mp hr with ⟨r0, hr0, hr0e⟩
        have : ¬ r0.2.2 = "=" := by
          intro hc
          exact hany (List.any_eq_true.mpr ⟨r0, hr0, by simp [hc]⟩)
        subst hr0e
        simp [canonRow_sign, this]
      rw [List.filter_eq_self.mpr hall]
      omega
  · unfold equalityBlock
    split_ifs with hany
    · simp only [reduceCtorEq, false_iff]
      rcases List.any_eq_true.mp hany with ⟨r, hr, hrp⟩
      intro hnone
      exact (hnone r hr) (by simpa using hrp)
    · simp only [true_iff]
      intro r hr hc
      exact hany (List.any_eq_true.mpr ⟨r, hr, by simp [hc]⟩)
  · unfold equalityBlock
    split_ifs with hany
    · intro l hl
      rw [canon_filter_eq] at hl
      exact (Option.some_inj.mp hl).symm
    · intro l hl
      exact absurd hl (by simp)
  · unfold inequalityBlock
    rw [canon_filter_ne]
    unfold canonicalRows
    rw [List.map_map]
    rfl

/-- C3 witness: a one-row problem whose only row has sign `=` — the
equality block holds that row unflipped. -/
theorem C3_partition_witness :
    [(([1] : List ℚ), (1 : ℚ))]
      = ([([1], 1, ("=" : String))].filter (fun r => decide (r.2.2 = "="))).map
          (fun r => (r.1, r.2.1)) :=
  (C3_partition [([1], 1, "=")]).2.2.1 [([1], 1)] rfl

/-- C5: the "Invalid model" failure is raised iff at least one of the
four structural conditions is violated; each violated condition
contributes its own diagnostic (all are aggregated before the failure);
and on failure `solve` raises without consulting the external solver —
its outcome is the error and is independent of the solver oracle. -/
theorem C5_validation_gate (obj : List ℚ) (c_l : List (List ℚ)) (c_r : List ℚ)
    (signs : List String) (pt : String) (_hne : ¬ c_l = []) :
    (¬ validate obj c_l c_r signs pt = [] ↔
      (¬ obj.length = (c_l.headD []).length
       ∨ ¬ (c_l.length = c_r.length ∧ c_r.length = signs.length)
       ∨ ¬ (pt = "max" ∨ pt = "min")
       ∨ (">" ∈ signs ∨ "<" ∈ signs)))
    ∧ (VErr.objLen ∈ validate obj c_l c_r signs pt
        ↔ ¬ obj.length = (c_l.headD []).length)
    ∧ (VErr.lenMismatch ∈ validate obj c_l c_r signs pt
        ↔ ¬ (c_l.length = c_r.length ∧ c_r.length = signs.length))
    ∧ (VErr.badProblemType ∈ validate obj c_l c_r signs pt
        ↔ ¬ (pt = "max" ∨ pt = "min"))
    ∧ (VErr.strictSign ∈ validate obj c_l c_r signs pt
        ↔ (">" ∈ signs ∨ "<" ∈ signs))
    ∧ (∀ (nn : Bool) (mn mx : Option ℚ) (bds : Option (List (Option ℚ × Option ℚ)))
        (meth : String) (disp : Bool) (f g : LinprogCall → SolverResult),
        ¬ validate obj c_l c_r signs pt = [] →
        solve pt obj c_l c_r signs nn mn mx bds meth disp f
          = Except.error (validate obj c_l c_r signs pt)
        ∧ solve pt obj c_l c_r signs nn mn mx bds meth disp f
          = solve pt obj c_l c_r signs nn mn mx bds meth disp g) := by
  refine ⟨?_, ?_, ?_, ?_, ?_, ?_⟩
  · unfold validate
    split_ifs <;> simp_all
  · unfold validate
    split_ifs <;> simp_all
  · unfold validate
    split_ifs <;> simp_all
  · unfold validate
    split_ifs <;> simp_all
  · unfold validate
    split_ifs <;> simp_all
  · intro nn mn mx bds meth disp f g hval
    constructor <;> simp [solve, hval]

/-- C5 witness: two violations at once — objective length 2 against a
1-column matrix, bare `"<"` sign, bad problem type — all reported. -/
theorem C5_validation_gate_witness :
    VErr.objLen ∈ validate [1, 2] [[1]] [1] ["<"] "bad" :=
  (C5_validation_gate [1, 2] [[1]] [1] ["<"] "bad" (by decide)).2.1.mpr (by decide)

/-- C4 counterexample: with `make_unconstrained_non_negative = False` and
both scalars supplied with value `0`, the derived bound pair of the single
variable is `(None, None)`, not the `(0, 0)` the claim's override rule
predicts for supplied scalars. -/
theorem C4_counterexample :
    deriveBounds 1 false (some 0) (some 0) = [(none, none)]
    ∧ ¬ (((none : Option ℚ), (none : Option ℚ)) = (some 0, some 0)) := by
  constructor
  · rfl
  · decide

/-- C4 amended: when no explicit bounds array is supplied, every
variable's pair starts at `(0, +infinity)`; disabling
`make_unconstrained_non_negative` makes the lower side unbounded; a
supplied scalar `minimum_for_all` whose value is truthy (nonzero)
overrides the lower side, taking precedence over the flag; a supplied
truthy `maximum_for_all` overrides the upper side; each knob overwrites
only its own side. -/
theorem C4_bounds_derivation (n : ℕ) (nn : Bool) (mn mx : Option ℚ)
    (i : ℕ) (h : i < n) :
    (deriveBounds n nn mn mx)[i]? =
      some ((if truthy mn then mn else if nn = false then none else some 0),
            (if truthy mx then mx else none)) := by
  unfold deriveBounds
  rw [List.getElem?_replicate, if_pos h]
  split_ifs <;> rfl

/-- C4 witness: one variable, flag disabled, `minimum_for_all = 5`:
the lower bound is `5` (precedence of the scalar over the flag). -/
theorem C4_bounds_derivation_witness :
    (deriveBounds 1 false (some 5) none)[0]? = some (some 5, none) :=
  C4_bounds_derivation 1 false (some 5) none 0 (by decide)

/-- C6 counterexample: the sign token `"??"` is outside the three
recognized tokens, yet `validate` reports no violation (the "Invalid
Model" failure is raised iff the violation list is nonempty), and the
solver is in fact called: `solve` returns `ok`, not `error`. -/
theorem C6_counterexample :
    validate [1] [[1]] [1] ["??"] "min" = []
    ∧ ¬ ("??" = "<=" ∨ "??" = ">=" ∨ "??" = "=")
    ∧ (solve "min" [1] [[1]] [1] ["??"] true none none none "highs" false
        (fun _ => ⟨[0], 0, true, "ok"⟩)).isOk = true := by
  refine ⟨rfl, by decide, rfl⟩

/-- C6 amended: validation reports the sign-vector violation exactly when
some element is the bare token `">"` or `"<"`; any other token — the
three recognized ones, but also unrecognized values such as `"??"` — is
accepted by the sign check. -/
theorem C6_sign_check (obj : List ℚ) (c_l : List (List ℚ)) (c_r : List ℚ)
    (signs : List String) (pt : String) :
    VErr.strictSign ∈ validate obj c_l c_r signs pt
      ↔ (">" ∈ signs ∨ "<" ∈ signs) := by
  unfold validate
  simp only [List.mem_append]
  split_ifs <;> simp_all

/-- C7 counterexample: a valid one-variable problem solved with
`display_result = False` still prints — the pre-solve objective-function
banner is emitted unconditionally — while returning the Solution. -/
theorem C7_counterexample :
    solve "min" [1] [[1]] [1] ["<="] true none none none "highs" false
        (fun _ => ⟨[0], 0, true, "ok"⟩)
      = Except.ok ([PrintEvent.objective (some [ObjItem.first (Disp.int 1) (some 'a')])],
          some ⟨[0], 0, true, "ok"⟩)
    ∧ ¬ ([PrintEvent.objective (some [ObjItem.first (Disp.int 1) (some 'a')])]
          = ([] : List PrintEvent)) := by
  constructor
  · rfl
  · simp

/-- C7 amended: for every problem passing validation, `display_result =
False` skips only the post-solve result printing — the objective-function
banner is still printed — and returns the Solution; `display_result =
True` prints both the banner and the results and returns nothing. -/
theorem C7_display_flag (pt : String) (obj : List ℚ) (c_l : List (List ℚ))
    (c_r : List ℚ) (signs : List String) (nn : Bool) (mn mx : Option ℚ)
    (bds : Option (List (Option ℚ × Option ℚ))) (meth : String)
    (f : LinprogCall → SolverResult)
    (h : validate obj c_l c_r signs pt = []) :
    solve pt obj c_l c_r signs nn mn mx bds meth false f
      = Except.ok ([PrintEvent.objective (printObjectiveFunction obj)],
          some (f (canonicalCall pt obj c_l c_r signs
            (usedBounds bds obj.length nn mn mx) meth)))
    ∧ solve pt obj c_l c_r signs nn mn mx bds meth true f
      = Except.ok ([PrintEvent.objective (printObjectiveFunction obj),
          printResults (f (canonicalCall pt obj c_l c_r signs
            (usedBounds bds obj.length nn mn mx) meth)) pt], none) := by
  constructor <;> simp [solve, h]

/-- C7 amended, witness: the silent-mode call on a concrete valid problem
returns the oracle's Solution alongside the objective banner. -/
theorem C7_display_flag_witness :
    solve "min" [2] [[1]] [1] ["<="] true none none none "highs" false
        (fun _ => ⟨[0], 0, true, "ok"⟩)
      = Except.ok ([PrintEvent.objective (printObjectiveFunction [2])],
          some ((fun _ => (⟨[0], 0, true, "ok"⟩ : SolverResult))
            (canonicalCall "min" [2] [[1]] [1] ["<="]
              (usedBounds none ([2] : List ℚ).length true none none) "highs"))) :=
  (C7_display_flag "min" [2] [[1]] [1] ["<="] true none none none "highs"
    (fun _ => ⟨[0], 0, true, "ok"⟩) (by decide)).1

/-- Negating a rational negates its display (same branch). -/
theorem dispOf_neg (x : ℚ) : dispOf (-x) = Dispneg (dispOf x) := by
  unfold dispOf isIntQ Dispneg
  rw [Rat.neg_den]
  split
  · unfold pyInt
    rw [Rat.neg_num, Rat.neg_den, Int.neg_tdiv]
  · rfl

/-- A subsequent objective term is the sign of the rounded coefficient
together with the display of its absolute value. -/
theorem termOf_eq (c : ℚ) :
    termOf c = (decide (pyRound 2 c < 0), dispOf |pyRound 2 c|) := by
  unfold termOf
  by_cases hneg : pyRound 2 c < 0
  · rw [if_pos hneg, abs_of_neg hneg, dispOf_neg]
    simp [hneg]
  · rw [if_neg hneg, abs_of_nonneg (not_lt.mp hneg)]
    simp [hneg]

/-- The loop body renders one item per remaining coefficient. -/
theorem restItems_length (i : ℕ) (l : List ℚ) :
    (restItems i l).length = l.length := by
  induction l generalizing i with
  | nil => rfl
  | cons c cs ih => simp [restItems, ih]

/-- The `j`-th item the loop renders, starting at label index `i`. -/
theorem restItems_getq (i j : ℕ) (l : List ℚ) :
    (restItems i l)[j]?
      = (l[j]?).map (fun c => ObjItem.signed (termOf c).1 (termOf c).2 alphabet[i + j]?) := by
  induction l generalizing i j with
  | nil => simp [restItems]
  | cons c cs ih =>
    cases j with
    | zero => simp [restItems]
    | succ j =>
      simp only [restItems, List.getElem?_cons_succ, ih]
      have : i + 1 + j = i + (j + 1) := by omega
      rw [this]

/-- C8 counterexample: the leading coefficient `1.239` is displayed raw
(`1.239`), not rounded to 2 decimal digits (`1.24`) as the claim states
for every coefficient including the first. -/
theorem C8_counterexample :
    printObjectiveFunction [mkRat 1239 1000, 1]
      = some [ObjItem.first (Disp.dec (mkRat 1239 1000)) (some 'a'),
              ObjItem.signed false (Disp.int 1) (some 'b')]
    ∧ pyRound 2 (mkRat 1239 1000) = mkRat 124 100
    ∧ ¬ (mkRat 1239 1000 = mkRat 124 100) := by
  refine ⟨by decide, by decide, by decide⟩

/-- C8 amended: the leading coefficient is displayed unrounded, collapsed
to integer form exactly when its raw value has zero fractional part and
showing its sign only if negative; every subsequent coefficient is
rounded to 2 decimal digits, rendered as an explicit sign token plus the
display of the rounded value's absolute value (collapsed to integer form
exactly when the rounded value has zero fractional part); variables are
labelled by sequential lowercase letters from `a`. -/
theorem C8_objective_rendering (obj : List ℚ) (items : List ObjItem)
    (h : printObjectiveFunction obj = some items) :
    items.length = obj.length
    ∧ (∀ x, obj[0]? = some x → items[0]? = some (ObjItem.first (dispOf x) (some 'a')))
    ∧ (∀ i c, obj[i + 1]? = some c →
        items[i + 1]? = some (ObjItem.signed (decide (pyRound 2 c < 0))
          (dispOf |pyRound 2 c|) alphabet[i + 1]?))
    ∧ (∀ x, isIntQ x = true → dispOf x = Disp.int (pyInt x))
    ∧ (∀ x, isIntQ x = false → dispOf x = Disp.dec x) := by
  cases obj with
  | nil => exact absurd h (by simp [printObjectiveFunction])
  | cons x rest =>
    have hitems : items
        = ObjItem.first (dispOf x) alphabet[0]? :: restItems 1 rest := by
      have := h
      unfold printObjectiveFunction at this
      exact (Option.some_inj.mp this).symm
    subst hitems
    refine ⟨by simp [restItems_length], ?_, ?_, ?_, ?_⟩
    · intro y hy
      have hxy : x = y := by simpa using hy
      subst hxy
      rw [List.getElem?_cons_zero]
      have ha : alphabet[0]? = some 'a' := by decide
      rw [ha]
    · intro i c hc
      have hrest : rest[i]? = some c := by simpa using hc
      rw [List.getElem?_cons_succ, restItems_getq, hrest]
      have hidx : 1 + i = i + 1 := by omega
      rw [hidx]
      simp [termOf_eq]
    · intro y hy
      unfold dispOf
      rw [if_pos hy]
    · intro y hy
      unfold dispOf
      rw [if_neg (by simp [hy])]

/-- C8 amended, witness: the rendering of the objective `[2, 3]`. -/
theorem C8_objective_rendering_witness :
    [ObjItem.first (Disp.int 2) (some 'a'),
      ObjItem.signed false (Disp.int 3) (some 'b')][0]?
      = some (ObjItem.first (dispOf 2) (some 'a')) :=
  (C8_objective_rendering [2, 3]
    [ObjItem.first (Disp.int 2) (some 'a'),
      ObjItem.signed false (Disp.int 3) (some 'b')] (by decide)).2.1 2 rfl

/-- C9, evaluation at the failing input: for `solution.fun = 15099.999`
(a minimization problem), the rounded-to-2-decimals value is `15100`, its
fractional part is zero, so the claim (and spec) call for the integer
`15100` to be displayed — but the program displays
`int(solution.fun) = 15099`, the truncation of the raw value. -/
theorem C9_truncation_bug :
    reportedOptimal "min" (mkRat 15099999 1000) = Disp.int 15099
    ∧ pyRound 2 (mkRat 15099999 1000) = 15100
    ∧ isIntQ (pyRound 2 (mkRat 15099999 1000)) = true
    ∧ ¬ ((15099 : ℤ) = 15100) := by
  refine ⟨by decide, by decide, by decide, by decide⟩

/-- C10: a `minimum_for_all` or `maximum_for_all` supplied with value `0`
is falsy, hence treated exactly as if absent: the derived bounds coincide
with the no-scalar derivation, so with the non-negative flag disabled the
lower bounds stay unbounded below, and the upper bounds stay `+infinity`. -/
theorem C10_zero_scalar_ignored (n : ℕ) (nn : Bool) (mn mx : Option ℚ) :
    deriveBounds n nn (some 0) mx = deriveBounds n nn none mx
    ∧ deriveBounds n nn mn (some 0) = deriveBounds n nn mn none
    ∧ (∀ p ∈ deriveBounds n false (some 0) mx, p.1 = none)
    ∧ (∀ p ∈ deriveBounds n nn mn (some 0), p.2 = none) := by
  refine ⟨rfl, rfl, ?_, ?_⟩
  · intro p hp
    rw [List.eq_of_mem_replicate hp]
    split_ifs <;> simp_all [truthy]
  · intro p hp
    rw [List.eq_of_mem_replicate hp]
    split_ifs <;> simp_all [truthy]

/-- C10 witness: one variable, flag disabled, both scalars supplied as
`0`: the derivation agrees with the absent-scalar one and the single
bound pair is `(None, None)`. -/
theorem C10_zero_scalar_ignored_witness :
    ((none : Option ℚ), (none : Option ℚ)).1 = none :=
  (C10_zero_scalar_ignored 1 false none none).2.2.1 (none, none) (by decide)

end ExcelSolver
